import Mathlib

/-!
Verification of the Nomad-Crew frontend specification against a shallow
embedding of the repository's TypeScript sources.

The embedding covers:
* the todo list screen (`src/components/todo/TodoList.tsx`): pagination,
  retry, the connection-status banner and the optimistic item actions;
* the trip-creation modal (`src/components/trips/CreateTripModal.tsx`):
  form validation and submission;
* the secure token manager and the auth store
  (`src/components/ui/Avatar.tsx` bundle: `BasicTokenManager`,
  `useAuthStore`'s `initialize` and `logout`);
* the trips screen tab filtering (`src/app/(tabs)/trips.tsx`).

Asynchronous calls into the external backend SDK are modelled by passing
their outcome as an explicit argument; React state is modelled as explicit
record states.
-/

namespace NomadCrew

/-- The realtime connection status values reported by the subscription
(the five-value enumeration the spec refers to; the component compares
against the string literals CONNECTING, RECONNECTING and ERROR). -/
inductive ConnStatus where
  | CONNECTING
  | CONNECTED
  | RECONNECTING
  | DISCONNECTED
  | ERROR
deriving DecidableEq, Repr

/-- The opaque websocket connection object held by the todo store; the
component only reads its `status` field (`wsConnection?.status`). -/
structure WsConnection where
  status : ConnStatus
deriving DecidableEq, Repr

/-- A todo item as used by `TodoList.tsx`: the component reads `id` and
`status` (status is the string COMPLETE or INCOMPLETE). -/
structure Todo where
  id : String
  text : String
  status : String
deriving DecidableEq, Repr

/-- The slice of the todo store state read by `TodoListContent`:
`todos`, `loading`, `error`, `hasMore`, `wsConnection`. -/
structure TodoState where
  todos : List Todo
  loading : Bool
  error : Option String
  hasMore : Bool
  wsConnection : Option WsConnection
deriving DecidableEq, Repr

/-- A call to the store's `fetchTodos(tripId, offset, limit)`. -/
structure FetchReq where
  tripId : String
  offset : Nat
  limit : Nat
deriving DecidableEq, Repr

/-- `handleLoadMore` (TodoList.tsx lines 44-48): issues
`fetchTodos(tripId, todos.length, 20)` exactly when `!loading && hasMore`;
`none` means no fetch is issued. -/
def handleLoadMore (s : TodoState) (tripId : String) : Option FetchReq :=
  if !s.loading && s.hasMore then
    some { tripId := tripId, offset := s.todos.length, limit := 20 }
  else
    none

/-- `handleRetry` (TodoList.tsx lines 50-53): issues
`fetchTodos(tripId, 0, 20)` unconditionally. -/
def handleRetry (tripId : String) : FetchReq :=
  { tripId := tripId, offset := 0, limit := 20 }

/-- Modelled from the spec: the todo store (`useTodoStore`, not among
these sources) resolves a page fetched by `fetchTodos` at a load-more
step; per the spec the list is "append-only across pages", so the page's
items are appended after the already loaded todos, which remain in
place. -/
def applyLoadedPage (s : TodoState) (page : List Todo) : TodoState :=
  { s with todos := s.todos ++ page, loading := false }

/-- `connectionStatus` (TodoList.tsx line 41): `wsConnection?.status`. -/
def connectionStatus (s : TodoState) : Option ConnStatus :=
  match s.wsConnection with
  | some c => some c.status
  | none => none

/-- The connection-status banner text (TodoList.tsx lines 112-118):
rendered when the status is CONNECTING or RECONNECTING, with text chosen
by comparing against CONNECTING; `none` means no such banner. -/
def bannerText (cs : Option ConnStatus) : Option String :=
  if cs = some ConnStatus.CONNECTING || cs = some ConnStatus.RECONNECTING then
    some (if cs = some ConnStatus.CONNECTING then "Connecting..." else "Reconnecting...")
  else
    none

/-- The connection-error banner (TodoList.tsx lines 120-126): rendered
exactly when the status is ERROR. -/
def connErrorBanner (cs : Option ConnStatus) : Bool :=
  cs = some ConnStatus.ERROR

/-- The status requested by the `onComplete` optimistic update
(TodoList.tsx lines 64-66): `status === COMPLETE ? INCOMPLETE : COMPLETE`. -/
def onCompleteStatus (item : Todo) : String :=
  if item.status = "COMPLETE" then "INCOMPLETE" else "COMPLETE"

/-- The id passed to `deleteTodo` by the `onDelete` action
(TodoList.tsx line 67). -/
def onDeleteTarget (item : Todo) : String :=
  item.id

/-- The trip record edited by `CreateTripModal.tsx`. Dates are held as
instants (`new Date(trip.startDate)` comparison order), modelled as
integer timestamps. -/
structure TripForm where
  id : String
  name : String
  destination : String
  description : String
  startDate : Int
  endDate : Int
deriving DecidableEq, Repr

/-- JavaScript's `String.prototype.trim`: drop leading and trailing
whitespace. -/
def strTrim (s : String) : String :=
  ⟨((s.data.dropWhile Char.isWhitespace).reverse.dropWhile Char.isWhitespace).reverse⟩

/-- `validateForm` (CreateTripModal.tsx lines 71-85): rejects a blank
trip name, a blank destination, and an end date strictly before the
start date; otherwise accepts. -/
def validateForm (trip : TripForm) : Bool :=
  if strTrim trip.name = "" then false
  else if strTrim trip.destination = "" then false
  else if trip.endDate < trip.startDate then false
  else true

/-- `handleSubmit` (CreateTripModal.tsx lines 90-102): returns early
when `validateForm` fails (`none` = nothing submitted), otherwise passes
the trip to `onSubmit`. -/
def handleSubmit (trip : TripForm) : Option TripForm :=
  if validateForm trip then some trip else none

/-- The underlying external secure store created by
`createSecureStore()` (an opaque third-party object with three
operations); `α` stands for the opaque result of each async operation. -/
structure SecureStore (α : Type) where
  setItem : String → String → α
  getItem : String → α
  removeItem : String → α

/-- `BasicTokenManager` (secure-token-manager.ts lines 355-368): holds a
secure store instance. -/
structure BasicTokenManager (α : Type) where
  secureStore : SecureStore α

/-- `BasicTokenManager.setItem`: `return this.secureStore.setItem(key, value)`. -/
def BasicTokenManager.setItem (m : BasicTokenManager α) (key value : String) : α :=
  m.secureStore.setItem key value

/-- `BasicTokenManager.getItem`: `return this.secureStore.getItem(key)`. -/
def BasicTokenManager.getItem (m : BasicTokenManager α) (key : String) : α :=
  m.secureStore.getItem key

/-- `BasicTokenManager.removeItem`: `return this.secureStore.removeItem(key)`. -/
def BasicTokenManager.removeItem (m : BasicTokenManager α) (key : String) : α :=
  m.secureStore.removeItem key

/-- The user record built by the auth store from a session
(`parseInt(session.user.id)` can fail on a non-numeric id, modelled by
`Option Int`). -/
structure User where
  id : Option Int
  email : String
  username : String
  firstName : Option String
  lastName : Option String
  profilePicture : Option String
deriving DecidableEq, Repr

/-- The user part of a Supabase session as read by the auth store. -/
structure SessionUser where
  id : String
  email : Option String
  username : Option String
  firstName : Option String
  lastName : Option String
  avatarUrl : Option String
deriving DecidableEq, Repr

/-- A Supabase session as read by the auth store (`session.user`,
`session.access_token`). -/
structure Session where
  user : Option SessionUser
  accessToken : String
deriving DecidableEq, Repr

/-- The auth store state (`useAuthStore` fields, Avatar.tsx bundle
lines 135-142). -/
structure AuthState where
  user : Option User
  token : Option String
  loading : Bool
  error : Option String
  isInitialized : Bool
  isFirstTime : Bool
  isVerifying : Bool
deriving DecidableEq, Repr

/-- The `User` object the auth store builds from a session user
(initialize, lines 155-162). -/
def buildUser (su : SessionUser) : User :=
  { id := su.id.toInt?
    email := su.email.getD ""
    username := su.username.getD ""
    firstName := su.firstName
    lastName := su.lastName
    profilePicture := su.avatarUrl }

/-- The store initialization (Avatar.tsx bundle lines 147-191; the
source name is a Lean keyword): returns immediately
when `state.loading || state.isInitialized`; otherwise sets
`loading := true`, recovers the session (`recoverSession` catches its own
errors and yields `null` on failure, so its outcome is the `recovered`
argument) and stores the result. -/
def initializeAuth (s : AuthState) (recovered : Option Session) : AuthState :=
  if s.loading || s.isInitialized then s
  else
    let s1 := { s with loading := true }
    match recovered with
    | some sess =>
      match sess.user with
      | some su =>
        { s1 with
            user := some (buildUser su)
            token := some sess.accessToken
            isInitialized := true
            loading := false
            error := none }
      | none =>
        { s1 with
            user := none
            token := none
            isInitialized := true
            loading := false
            error := none }
    | none =>
      { s1 with
          user := none
          token := none
          isInitialized := true
          loading := false
          error := none }

/-- `logout` (Avatar.tsx bundle lines 327-343): sets `loading := true`,
calls `supabase.auth.signOut()` whose error (if any) is caught and only
logged — `signOutError` is that outcome — and in the `finally` block
resets `user`, `token`, `loading`, `error` and `isVerifying`. -/
def logout (s : AuthState) (signOutError : Option String) : AuthState :=
  let s1 := { s with loading := true }
  let s2 :=
    match signOutError with
    | some _ => s1
    | none => s1
  { s2 with
      user := none
      token := none
      loading := false
      error := none
      isVerifying := false }

/-- JavaScript's `String.prototype.includes`: `q` occurs as a contiguous
substring of `s`. -/
def strIncludes (s q : String) : Bool :=
  s.data.tails.any (fun t => q.data.isPrefixOf t)

/-- JavaScript's `String.prototype.toUpperCase` (ASCII part). -/
def strToUpper (s : String) : String :=
  ⟨s.data.map Char.toUpper⟩

/-- JavaScript's `String.prototype.toLowerCase` (ASCII part). -/
def strToLower (s : String) : String :=
  ⟨s.data.map Char.toLower⟩

/-- A trip as read by the trips screen filter: `status` may be absent
(`trip.status?.toUpperCase()`); `endDate` is the instant
`new Date(trip.endDate)`, modelled as an integer timestamp. -/
structure Trip where
  id : String
  name : String
  destination : String
  status : Option String
  endDate : Int
deriving DecidableEq, Repr

/-- The three tabs of the trips screen. -/
inductive Tab where
  | Active
  | Recent
  | Cancelled
deriving DecidableEq, Repr

/-- The first normalization pass of `filteredTrips` (trips.tsx lines
72-81): uppercase the status and map PLANNED to PLANNING. -/
def normalizeTrip (trip : Trip) : Trip :=
  let normalizedStatus := trip.status.map strToUpper
  let normalizedStatus :=
    if normalizedStatus == some "PLANNED" then some "PLANNING" else normalizedStatus
  { trip with status := normalizedStatus }

/-- The search predicate of `filteredTrips` (trips.tsx lines 86-89),
applied with the lowercased query: the name contains the query, or the
destination is non-empty (truthy) and contains the query. -/
def matchesQuery (query : String) (trip : Trip) : Bool :=
  strIncludes (strToLower trip.name) query ||
  (trip.destination != "" && strIncludes (strToLower trip.destination) query)

/-- The stages of `filteredTrips` before the tab switch (trips.tsx lines
71-96): normalize each trip, filter by the search query when it is
non-empty (truthy), then uppercase the status again. -/
def searchStage (trips : List Trip) (searchQuery : String) : List Trip :=
  let filtered := trips.map normalizeTrip
  let filtered :=
    if searchQuery != "" then filtered.filter (matchesQuery (strToLower searchQuery))
    else filtered
  filtered.map (fun trip => { trip with status := trip.status.map strToUpper })

/-- `filteredTrips` (trips.tsx lines 70-113): the search-and-normalize
stages followed by the tab switch. Active keeps status ACTIVE or
PLANNING; Recent keeps status COMPLETED or an end date before `now`
(`new Date()`); Cancelled keeps status CANCELLED. -/
def filteredTrips (trips : List Trip) (activeTab : Tab) (searchQuery : String)
    (now : Int) : List Trip :=
  let filtered := searchStage trips searchQuery
  match activeTab with
  | Tab.Active =>
    filtered.filter (fun t => t.status == some "ACTIVE" || t.status == some "PLANNING")
  | Tab.Recent =>
    filtered.filter (fun t => t.status == some "COMPLETED" || decide (t.endDate < now))
  | Tab.Cancelled =>
    filtered.filter (fun t => t.status == some "CANCELLED")

/-! Concrete sample values used to instantiate the theorems below. -/

/-- A sample incomplete todo. -/
def todoA : Todo := { id := "t-1", text := "pack bags", status := "INCOMPLETE" }

/-- A sample completed todo. -/
def todoB : Todo := { id := "t-2", text := "book hotel", status := "COMPLETE" }

/-- A sample todo arriving on a later page. -/
def todoC : Todo := { id := "t-3", text := "rent car", status := "INCOMPLETE" }

/-- A sample todo store state with two loaded todos, no fetch in
progress, more pages available and a connected subscription. -/
def demoTodoState : TodoState :=
  { todos := [todoA, todoB]
    loading := false
    error := none
    hasMore := true
    wsConnection := some { status := ConnStatus.CONNECTED } }

/-- A sample auth store state that has already been initialized. -/
def demoAuthState : AuthState :=
  { user := none
    token := some "tok-1"
    loading := false
    error := none
    isInitialized := true
    isFirstTime := false
    isVerifying := false }

/-- A sample trip-creation form input whose name is blank. -/
def noNameTrip : TripForm :=
  { id := ""
    name := "  "
    destination := "Paris"
    description := ""
    startDate := 0
    endDate := 1 }

/-- A sample trip whose status is ACTIVE but whose end date is already
in the past. -/
def overlapTrip : Trip :=
  { id := "trip-9"
    name := "Alps"
    destination := "Chamonix"
    status := some "ACTIVE"
    endDate := -1 }

/-- C1: the todo list is append-only across pages. The load-more
operation issues a fetch only when no fetch is in progress and the store
reports more pages, and that fetch requests offset `todos.length` with
limit 20; resolving a loaded page leaves the previously loaded todos in
place as a prefix and only appends the new items. -/
theorem loadMore_appendOnly (s : TodoState) (tripId : String) (page : List Todo) :
    (∀ req, handleLoadMore s tripId = some req →
      s.loading = false ∧ s.hasMore = true ∧
      req = { tripId := tripId, offset := s.todos.length, limit := 20 }) ∧
    (s.loading = false → s.hasMore = true →
      handleLoadMore s tripId =
        some { tripId := tripId, offset := s.todos.length, limit := 20 }) ∧
    (applyLoadedPage s page).todos = s.todos ++ page ∧
    s.todos <+: (applyLoadedPage s page).todos := by
  refine ⟨?_, ?_, rfl, ⟨page, rfl⟩⟩
  · intro req h
    unfold handleLoadMore at h
    split at h
    · rename_i hc
      rw [Bool.and_eq_true, Bool.not_eq_true'] at hc
      exact ⟨hc.1, hc.2, (Option.some_inj.mp h).symm⟩
    · exact absurd h (by simp)
  · intro hl hm
    simp [handleLoadMore, hl, hm]

/-- C1 witness: on the sample state (two loaded todos, not loading,
more pages), load-more requests offset 2 with limit 20, and applying the
fetched page keeps the loaded todos as a prefix. -/
theorem loadMore_appendOnly_witness :
    handleLoadMore demoTodoState "trip-1" =
      some { tripId := "trip-1", offset := 2, limit := 20 } ∧
    demoTodoState.todos <+: (applyLoadedPage demoTodoState [todoC]).todos := by
  have h := loadMore_appendOnly demoTodoState "trip-1" [todoC]
  exact ⟨h.2.1 rfl rfl, h.2.2.2⟩

/-- C2: the connection banner is a function of the subscription status:
the text is Connecting... exactly on CONNECTING, Reconnecting... exactly
on RECONNECTING, the connection-error banner shows exactly on ERROR, and
in every other case (including CONNECTED and an absent connection
object) no banner is rendered. -/
theorem banner_matches_status (cs : Option ConnStatus) :
    (bannerText cs = some "Connecting..." ↔ cs = some ConnStatus.CONNECTING) ∧
    (bannerText cs = some "Reconnecting..." ↔ cs = some ConnStatus.RECONNECTING) ∧
    (connErrorBanner cs = true ↔ cs = some ConnStatus.ERROR) ∧
    ((bannerText cs = none ∧ connErrorBanner cs = false) ↔
      (cs ≠ some ConnStatus.CONNECTING ∧ cs ≠ some ConnStatus.RECONNECTING ∧
        cs ≠ some ConnStatus.ERROR)) := by
  rcases cs with _ | c
  · decide
  · cases c <;> decide

/-- C3: the status used by the todo list mirrors the subscription: it
always equals the `status` field of the `wsConnection` object when that
object is present, and is absent otherwise, with no local transition
logic applied. -/
theorem connectionStatus_mirror (s : TodoState) :
    connectionStatus s = s.wsConnection.map WsConnection.status ∧
    (∀ c, s.wsConnection = some c → connectionStatus s = some c.status) ∧
    (s.wsConnection = none → connectionStatus s = none) := by
  refine ⟨?_, ?_, ?_⟩
  · cases h : s.wsConnection <;> simp [connectionStatus, h]
  · intro c hc
    simp [connectionStatus, hc]
  · intro hn
    simp [connectionStatus, hn]

/-- C3 witness: on the sample state whose connection reports CONNECTED,
the displayed status is CONNECTED. -/
theorem connectionStatus_mirror_witness :
    connectionStatus demoTodoState = some ConnStatus.CONNECTED :=
  (connectionStatus_mirror demoTodoState).2.1 { status := ConnStatus.CONNECTED } rfl

/-- C4: the retry operation restarts the paginated fetch from the
beginning: for every trip id it requests offset 0 with limit 20 for that
trip, independently of any pagination cursor. -/
theorem retry_restarts_from_zero (tripId : String) :
    (handleRetry tripId).tripId = tripId ∧
    (handleRetry tripId).offset = 0 ∧
    (handleRetry tripId).limit = 20 :=
  ⟨rfl, rfl, rfl⟩

/-- C5 counterexample: the trip-creation form does apply locally
implemented validation. On an input whose name is blank, `validateForm`
rejects and `handleSubmit` submits nothing. -/
theorem createTrip_no_local_validation_cex :
    strTrim noNameTrip.name = "" ∧
    validateForm noNameTrip = false ∧
    handleSubmit noNameTrip = none := by
  decide

/-- C5 amended: the trip-creation form implements local validation in
`validateForm`: submission proceeds exactly when the trimmed name is
non-empty, the trimmed destination is non-empty, and the end date is not
strictly before the start date. -/
theorem createTrip_local_validation (trip : TripForm) :
    handleSubmit trip = some trip ↔
      (strTrim trip.name ≠ "" ∧ strTrim trip.destination ≠ "" ∧
        trip.startDate ≤ trip.endDate) := by
  have hv : validateForm trip = true ↔
      (strTrim trip.name ≠ "" ∧ strTrim trip.destination ≠ "" ∧
        trip.startDate ≤ trip.endDate) := by
    unfold validateForm
    by_cases h1 : strTrim trip.name = "" <;>
      by_cases h2 : strTrim trip.destination = "" <;>
        by_cases h3 : trip.endDate < trip.startDate <;>
          simp [h1, h2, h3] <;> omega
  unfold handleSubmit
  by_cases hb : validateForm trip = true
  · simp [hb, hv.mp hb]
  · rw [Bool.not_eq_true] at hb
    simp [hb, ← hv]

/-- C6: the optimistic update of the complete action toggles the status
(COMPLETE requests INCOMPLETE, anything else requests COMPLETE), and the
delete action targets exactly the todo's own id. -/
theorem completeToggle_deleteTarget (item : Todo) :
    (item.status = "COMPLETE" → onCompleteStatus item = "INCOMPLETE") ∧
    (item.status ≠ "COMPLETE" → onCompleteStatus item = "COMPLETE") ∧
    onDeleteTarget item = item.id := by
  refine ⟨?_, ?_, rfl⟩
  · intro h
    simp [onCompleteStatus, h]
  · intro h
    simp [onCompleteStatus, h]

/-- C6 witness: the completed sample todo is toggled to INCOMPLETE, the
incomplete one to COMPLETE, and deletion targets its id. -/
theorem completeToggle_deleteTarget_witness :
    onCompleteStatus todoB = "INCOMPLETE" ∧
    onCompleteStatus todoA = "COMPLETE" ∧
    onDeleteTarget todoA = "t-1" := by
  refine ⟨(completeToggle_deleteTarget todoB).1 rfl,
    (completeToggle_deleteTarget todoA).2.1 (by decide),
    (completeToggle_deleteTarget todoA).2.2⟩

/-- C7: the secure token manager adds no logic over the external secure
store: each of its three operations returns exactly the result of the
corresponding operation of the underlying store, for every key and
value. -/
theorem tokenManager_delegates {α : Type} (m : BasicTokenManager α)
    (key value : String) :
    m.setItem key value = m.secureStore.setItem key value ∧
    m.getItem key = m.secureStore.getItem key ∧
    m.removeItem key = m.secureStore.removeItem key :=
  ⟨rfl, rfl, rfl⟩

/-- C8: logout always clears the local session: from every starting
state and for every outcome of the remote sign-out call (success or a
thrown error), the resulting auth state has no user, no token, loading
false, no error, and isVerifying false. -/
theorem logout_clears_session (s : AuthState) (signOutError : Option String) :
    (logout s signOutError).user = none ∧
    (logout s signOutError).token = none ∧
    (logout s signOutError).loading = false ∧
    (logout s signOutError).error = none ∧
    (logout s signOutError).isVerifying = false := by
  cases signOutError <;> exact ⟨rfl, rfl, rfl, rfl, rfl⟩

/-- C9: store initialization is idempotent once complete: whenever a
load is in progress or the store is already initialized, initialization
returns the state unchanged, whatever the recovered session would have
been. -/
theorem initializeAuth_idempotent (s : AuthState) (recovered : Option Session)
    (h : s.loading = true ∨ s.isInitialized = true) :
    initializeAuth s recovered = s := by
  unfold initializeAuth
  rcases h with h | h <;> simp [h]

/-- C9 witness: on the sample already-initialized state, initialization
leaves the state unchanged. -/
theorem initializeAuth_idempotent_witness :
    initializeAuth demoAuthState none = demoAuthState :=
  initializeAuth_idempotent demoAuthState none (Or.inr rfl)

/-- C10: trip tab filtering normalizes status before comparing (every
status is uppercased, with PLANNED mapped to PLANNING); over the
search-and-normalize stage, the Active tab holds exactly the trips whose
normalized status is ACTIVE or PLANNING, the Recent tab exactly those
with COMPLETED or an end date before now, and the Cancelled tab exactly
those with CANCELLED; a trip with ACTIVE status and a past end date
appears under both Active and Recent. -/
theorem trips_tab_filtering (trips : List Trip) (q : String) (now : Int) :
    (∀ t0 : Trip, (normalizeTrip t0).status = t0.status.map strToUpper ∨
      (t0.status.map strToUpper = some "PLANNED" ∧
        (normalizeTrip t0).status = some "PLANNING")) ∧
    (∀ t, t ∈ filteredTrips trips Tab.Active q now ↔
      (t ∈ searchStage trips q ∧
        (t.status = some "ACTIVE" ∨ t.status = some "PLANNING"))) ∧
    (∀ t, t ∈ filteredTrips trips Tab.Recent q now ↔
      (t ∈ searchStage trips q ∧
        (t.status = some "COMPLETED" ∨ t.endDate < now))) ∧
    (∀ t, t ∈ filteredTrips trips Tab.Cancelled q now ↔
      (t ∈ searchStage trips q ∧ t.status = some "CANCELLED")) ∧
    (overlapTrip ∈ filteredTrips [overlapTrip] Tab.Active "" 0 ∧
      overlapTrip ∈ filteredTrips [overlapTrip] Tab.Recent "" 0) := by
  refine ⟨?_, ?_, ?_, ?_, by decide, by decide⟩
  · intro t0
    by_cases h : t0.status.map strToUpper == some "PLANNED"
    · right
      exact ⟨by simpa using h, by simp [normalizeTrip, h]⟩
    · left
      simp [normalizeTrip, h]
  · intro t
    simp [filteredTrips, List.mem_filter]
  · intro t
    simp [filteredTrips, List.mem_filter]
  · intro t
    simp [filteredTrips, List.mem_filter]

end NomadCrew
